import Mathlib

/-!
Shallow embedding of `easy-ble` (ble-master.src.js) for verification of the
specification's claims: MAC helpers, the device registry, `connect`,
`generateProfileObject`, `quit`, the operation queue (`QueueManager`) and the
read/write completion waiters.
-/

namespace EasyBLE

/-- Error message constants from the `ERR` table of the source. -/
def ERR_PREFIX : String := "ERR: "

def ERR_PID_NOT_FOUND : String :=
  ERR_PREFIX ++ "The profile pointer ID is not found for this MAC address. Please use startListener before trying to write char/desc!"

def ERR_DEVICE_NOT_CONNECTED : String :=
  ERR_PREFIX ++ "Device not connected. Please connect before attempting this operation."

def ERR_INVALID_MAC_ADDR : String := ERR_PREFIX ++ "Invalid MAC address format"

def ERR_DEVICE_NOT_FOUND : String := ERR_PREFIX ++ "Device not found"

def ERR_CHAR_WRITE_OPERATION_TIMEOUT : String :=
  ERR_PREFIX ++ "Characteristic write operation timeout. Make sure to subscribe to the .on.charaWriteComplete(...) event!"

def ERR_CHAR_READ_OPERATION_TIMEOUT : String :=
  ERR_PREFIX ++ "Characteristic read operation timeout. Make sure to subscribe to either the .on.charaValueArrived(...) or .on.charaReadComplete(...) event!"

def ERR_DESC_WRITE_OPERATION_TIMEOUT : String :=
  ERR_PREFIX ++ "Descriptor write operation timeout. Make sure to subscribe to the .on.descWriteComplete(...) event!"

def ERR_DESC_READ_OPERATION_TIMEOUT : String :=
  ERR_PREFIX ++ "Descriptor read operation timeout. Make sure to subscribe to either the .on.descValueArrived(...) or .on.descReadComplete(...) event!"

/-- `str.split(sep)` for a single-character separator, as JS defines it:
every occurrence of the separator ends a field, empty fields included
(`"".split(c)` is `[""]`, `"a:".split(':')` is `["a", ""]`). -/
def jsSplit (sep : Char) : List Char → List (List Char)
  | [] => [[]]
  | c :: rest =>
    match jsSplit sep rest with
    | [] => [[]]
    | g :: gs => if c = sep then [] :: g :: gs else (c :: g) :: gs

/-- Whether `hay` starts with `needle`. -/
def charsLeadWith (needle hay : List Char) : Bool :=
  match needle, hay with
  | [], _ => true
  | _ :: _, [] => false
  | n :: ns, h :: hs => n = h && charsLeadWith ns hs

/-- Whether `needle` occurs contiguously in `hay`. -/
def charsHaveSub (needle hay : List Char) : Bool :=
  match hay with
  | [] => needle.isEmpty
  | c :: rest => charsLeadWith needle (c :: rest) || charsHaveSub needle rest

/-- `s.includes(sub)`. -/
def strContains (s sub : String) : Bool := charsHaveSub sub.data s.data

/-- `str.toLowerCase()` on the ASCII range relevant to MAC addresses
(`Char.toLower` maps `A-Z` to `a-z` and leaves the rest unchanged, which
coincides with JS on these strings). -/
def jsToLower (s : String) : String := String.mk (s.data.map Char.toLower)

/-- One hex digit's value (`0-9`, `a-f`, `A-F`), as used by `parseInt(_, 16)`. -/
def hexVal (c : Char) : Option Nat :=
  if c.isDigit then some (c.toNat - 48)
  else if 'a' ≤ c ∧ c ≤ 'f' then some (c.toNat - 87)
  else if 'A' ≤ c ∧ c ≤ 'F' then some (c.toNat - 55)
  else none

/-- Value of the maximal leading run of hex digits, accumulator style. -/
def hexRunVal (acc : Nat) : List Char → Nat
  | [] => acc
  | c :: cs =>
    match hexVal c with
    | none => acc
    | some v => hexRunVal (acc * 16 + v) cs

/-- `parseInt(s, 16)` on a plain token (no leading whitespace/sign, as produced
by splitting a MAC string): the value of the longest leading run of hex
digits, `none` for `NaN` when the first character is not a hex digit. -/
def parseIntHex (cs : List Char) : Option Nat :=
  match cs with
  | [] => none
  | c :: _ =>
    match hexVal c with
    | none => none
    | some _ => some (hexRunVal 0 cs)

/-- The `Uint8Array` element coercion applied to a `parseInt` result:
`NaN` becomes `0`, numbers are reduced mod `2^8`. -/
def toUint8 : Option Nat → Nat
  | none => 0
  | some v => v % 256

/-- `mac2ab`: split on `:` and `parseInt(byte, 16)` each part, collected into a
`Uint8Array` (modelled as the list of its bytes; `byteLength` is the list
length). -/
def mac2ab (mac : String) : List Nat :=
  (jsSplit ':' mac.data).map (fun p => toUint8 (parseIntHex p))

/-- `isValidMacAddress`: the regex
`^[0-9A-Fa-f]{2}([-:])[0-9A-Fa-f]{2}(\1[0-9A-Fa-f]{2}){4}$` — six hex pairs
joined by a consistent separator that is `-` or `:`. -/
def isValidMacAddress (mac : String) : Bool :=
  match mac.data with
  | [a, b, s1, c, d, s2, e, f, s3, g, h, s4, i, j, s5, k, l] =>
    (s1 = '-' || s1 = ':') && s2 = s1 && s3 = s1 && s4 = s1 && s5 = s1 &&
      [a, b, c, d, e, f, g, h, i, j, k, l].all (fun ch => (hexVal ch).isSome)
  | _ => false

/-- `isMacAddressMatch(mac, pattern)`: split both on `:`; differing octet
counts never match; a pattern octet `xx` matches anything, any other pattern
octet must equal the corresponding mac octet. -/
def isMacAddressMatch (mac pattern : String) : Bool :=
  let mac_bytes := jsSplit ':' mac.data
  let pattern_bytes := jsSplit ':' pattern.data
  if mac_bytes.length ≠ pattern_bytes.length then false
  else (List.zip pattern_bytes mac_bytes).all
    (fun pb => pb.1 = ['x', 'x'] || pb.1 = pb.2)

/-- `findMatchingMacAddress(devices, pattern)`: lowercase the pattern, then
return the first registry key (in insertion order) matching it, else `null`. -/
def findMatchingMacAddress (devices : List String) (pattern : String) : Option String :=
  let pat := jsToLower pattern
  devices.find? (fun mac => isMacAddressMatch mac pat)

/-- A registry entry of `BLEMaster.#devices`. Only the fields the embedded
operations consult are carried. `connect_id = none` models both an absent
field and a non-number value (the source checks `typeof ... !== 'number'`);
`profile_pid = none` models `undefined`; `dev_name = none` models `undefined`
(the `||` default also treats the empty string as falsy). -/
structure Device where
  dev_name : Option String := none
  connect_id : Option Int := none
  is_connected : Bool := false
  profile_pid : Option Nat := none
deriving DecidableEq, Repr

/-- The `On` class's static completion flags (cross-object signalling between
the Event Correlator and the Operation Queue's waiters). -/
structure Flags where
  chara_write_complete_flag : Bool := false
  desc_write_complete_flag : Bool := false
  chara_read_complete_flag : Bool := false
  desc_read_complete_flag : Bool := false
deriving DecidableEq, Repr

/-- The `On` class's static callback slots (`_cb_*`), `true` when a handler is
registered, `false` when `null`. -/
structure Callbacks where
  charaReadComplete : Bool := false
  charaValueArrived : Bool := false
  charaWriteComplete : Bool := false
  descReadComplete : Bool := false
  descValueArrived : Bool := false
  descWriteComplete : Bool := false
  charaNotification : Bool := false
  serviceChangeBegin : Bool := false
  serviceChangeEnd : Bool := false
deriving DecidableEq, Repr

/-- All callback slots cleared (`Off.deregisterAll`). -/
def clearedCallbacks : Callbacks :=
  { charaReadComplete := false, charaValueArrived := false, charaWriteComplete := false
    descReadComplete := false, descValueArrived := false, descWriteComplete := false
    charaNotification := false, serviceChangeBegin := false, serviceChangeEnd := false }

/-- The mutable instance state of `BLEMaster` relevant to the claims. The
`#devices` object is an insertion-ordered string-keyed map, modelled as an
association list. `off_exists` records whether `this.off` has been assigned
(it is, on a successful prepare). -/
structure BLEState where
  devices : List (String × Device) := []
  last_connected_mac : Option String := none
  connection_in_progress : Bool := false
  is_scanning : Bool := false
  off_exists : Bool := false
  callbacks : Callbacks := {}
deriving DecidableEq, Repr

/-- `this.#devices[mac]` lookup. -/
def getDevice (s : BLEState) (mac : String) : Option Device :=
  (s.devices.find? (fun p => p.1 = mac)).map (fun p => p.2)

/-- Write `this.#devices[mac] = d` into the map (overwriting in place, or
appending when absent — JS object insertion order). -/
def setDevice (s : BLEState) (mac : String) (d : Device) : BLEState :=
  if (s.devices.find? (fun p => p.1 = mac)).isSome then
    { s with devices := s.devices.map (fun p => if p.1 = mac then (mac, d) else p) }
  else
    { s with devices := s.devices ++ [(mac, d)] }

/-- `#getCurrentlyConnectedDevice`: the entry for `#last_connected_mac`, or
`null` when no last-connected MAC is tracked. -/
def getCurrentlyConnectedDevice (s : BLEState) : Option Device :=
  match s.last_connected_mac with
  | none => none
  | some mac => getDevice s mac

/-- `Get.isConnected`: `device && device.is_connected`, cast to `Bool`. -/
def isConnected (s : BLEState) : Bool :=
  match getCurrentlyConnectedDevice s with
  | none => false
  | some d => d.is_connected

/-- Calls issued to the native transport (`hmBle.mst*`). -/
inductive TCall where
  | mstConnect (addr : List Nat)
  | mstDisconnect (connect_id : Option Int)
  | mstOffAllCb
  | mstDestroyProfileInstance (pid : Nat)
  | mstStopScan
  | mstWriteCharacteristic (pid : Nat) (uuid : String)
  | mstWriteCharacteristicWithoutResponse (pid : Nat) (uuid : String)
  | mstWriteDescriptor (pid : Nat) (chara desc : String)
  | mstReadCharacteristic (pid : Nat) (uuid : String)
  | mstReadDescriptor (pid : Nat) (chara desc : String)
deriving DecidableEq, Repr

/-- The argument object of `connect`'s `response_callback`. -/
structure ConnResult where
  connected : Bool
  status : String
deriving DecidableEq, Repr

/-- JavaScript exceptions reachable in the embedded fragment. Evaluating an
undeclared identifier throws `ReferenceError`. -/
inductive JSError where
  | referenceError
deriving DecidableEq, Repr

/-- Return-or-throw of a synchronous JS call. -/
inductive JSReturn (α : Type) where
  | ok (v : α)
  | thrown (e : JSError)
deriving DecidableEq, Repr

/-- What a synchronous `connect` call produces: the returned boolean (or a
thrown exception), the `response_callback` invocations made synchronously, and
the transport calls issued synchronously. -/
structure ConnectOutcome where
  result : JSReturn Bool
  cbs : List ConnResult
  transport : List TCall
deriving DecidableEq, Repr

/-- `connect` after the wildcard pattern has been resolved (source lines
242-268): already-connected short-circuit, strict format check, in-progress
check, per-device connected check, then the call
`#initiateConnection(dev_addr, response_callback, attempt, max_attempts,
timeout_duration)` — whose arguments `attempt`, `max_attempts` and
`timeout_duration` are declared nowhere in the module, so evaluating them
throws a `ReferenceError` before `#initiateConnection` runs and before any
transport call. -/
def connectResolved (s : BLEState) (dev_addr : String) : ConnectOutcome :=
  if isConnected s then
    { result := JSReturn.ok true, cbs := [{ connected := true, status := "connected" }], transport := [] }
  else if ¬ isValidMacAddress dev_addr then
    { result := JSReturn.ok false, cbs := [{ connected := false, status := "invalid mac" }], transport := [] }
  else if s.connection_in_progress then
    { result := JSReturn.ok false, cbs := [{ connected := false, status := "in progress" }], transport := [] }
  else if (getDevice s dev_addr).elim false (fun d => d.is_connected) then
    { result := JSReturn.ok true, cbs := [{ connected := true, status := "connected" }], transport := [] }
  else
    { result := JSReturn.thrown JSError.referenceError, cbs := [], transport := [] }

/-- `BLEMaster.connect(dev_addr, response_callback)` (source lines 222-269):
falsy-address guard, lowercasing, wildcard-pattern resolution against the
registry, then `connectResolved`. -/
def connect (s : BLEState) (dev_addr : String) : ConnectOutcome :=
  if dev_addr = "" then
    { result := JSReturn.ok false, cbs := [], transport := [] }
  else
    let a := jsToLower dev_addr
    if strContains a "xx" then
      match findMatchingMacAddress (s.devices.map (fun p => p.1)) a with
      | none =>
        { result := JSReturn.ok false, cbs := [{ connected := false, status := "device not found" }], transport := [] }
      | some matched => connectResolved s matched
    else connectResolved s a

/-- A descriptor node of the profile tree. -/
structure DescNode where
  uuid : String
  permission : Nat
deriving DecidableEq, Repr

/-- A characteristic node: UUID, permission, the duplicated descriptor-count
fields `desc`/`len`, and the descriptor list — which the source only attaches
when at least one descriptor exists (`none` models the absent field). -/
structure CharaNode where
  uuid : String
  permission : Nat
  desc : Nat
  len : Nat
  list : Option (List DescNode)
deriving DecidableEq, Repr

/-- A service node: UUID, permission 0, the duplicated characteristic-count
fields `len1`/`len2`, and the characteristic list. -/
structure ServiceNode where
  uuid : String
  permission : Nat
  len1 : Nat
  len2 : Nat
  list : List CharaNode
deriving DecidableEq, Repr

/-- The service-list node (second level): constant `uuid: true`, the
duplicated `size`/`len` fields, and the service list. -/
structure ServiceListNode where
  uuid : Bool
  size : Nat
  len : Nat
  list : List ServiceNode
deriving DecidableEq, Repr

/-- The root profile object passed to `mstBuildProfile`. -/
structure ProfileObject where
  pair : Bool
  id : Int
  profile : String
  dev : List Nat
  len : Nat
  list : List ServiceListNode
deriving DecidableEq, Repr

/-- A structured error result `{ success: false, error }`. -/
structure ErrObj where
  success : Bool
  error : String
deriving DecidableEq, Repr

/-- Result of `generateProfileObject`: either a structured error object or a
profile tree. The source function never throws: every failure path is a
`return { success: false, error: ... }`. -/
inductive GenResult where
  | err (e : ErrObj)
  | ok (p : ProfileObject)
deriving DecidableEq, Repr

/-- The `services` argument: an insertion-ordered map from service UUID to an
insertion-ordered map from characteristic UUID to its descriptor UUID list. -/
def Services : Type := List (String × List (String × List String))

/-- The `permissions` argument: UUID to `{ value }` entries; a present entry
is a truthy object whose `value` field is read, an absent one defaults the
permission to 32. -/
def Perms : Type := List (String × Nat)

/-- `permissions[uuid] ? permissions[uuid].value : 32`. -/
def permValue (permissions : Perms) (uuid : String) : Nat :=
  match permissions.find? (fun p => p.1 = uuid) with
  | some p => p.2
  | none => 32

/-- `device.dev_name || "undefined"` (JS `||`: `undefined` and the empty
string are falsy). -/
def devNameOrUndefined (dev_name : Option String) : String :=
  match dev_name with
  | none => "undefined"
  | some n => if n = "" then "undefined" else n

/-- One characteristic entry of the compiled tree (source lines 492-515). -/
def mkCharaNode (permissions : Perms) (chara_uuid : String) (desc_uuids : List String) : CharaNode :=
  { uuid := chara_uuid
    permission := permValue permissions chara_uuid
    desc := desc_uuids.length
    len := desc_uuids.length
    list :=
      if desc_uuids.length > 0 then
        some (desc_uuids.map (fun du => { uuid := du, permission := permValue permissions du }))
      else none }

/-- One service entry of the compiled tree (source lines 482-519). -/
def mkServiceNode (permissions : Perms) (serv_uuid : String)
    (characteristics : List (String × List String)) : ServiceNode :=
  { uuid := serv_uuid
    permission := 0
    len1 := characteristics.length
    len2 := characteristics.length
    list := characteristics.map (fun c => mkCharaNode permissions c.1 c.2) }

/-- `BLEMaster.generateProfileObject(services, permissions)` (source lines
425-521). Failure paths in source order: no last-connected MAC, device entry
missing, device not connected, `connect_id` not a number, `mac2ab` result not
6 bytes. Then the tree is built: root `len` is the constant 1, the
service-list node carries `size = len = serv_len`, and the services map is
folded in iteration (insertion) order. There is no emptiness check on
`services`. -/
def generateProfileObject (s : BLEState) (services : Services) (permissions : Perms) : GenResult :=
  match s.last_connected_mac with
  | none => GenResult.err { success := false, error := ERR_DEVICE_NOT_CONNECTED }
  | some dev_addr =>
    match getDevice s dev_addr with
    | none => GenResult.err { success := false, error := ERR_DEVICE_NOT_FOUND ++ ": " ++ dev_addr }
    | some device =>
      if ¬ device.is_connected then
        GenResult.err { success := false, error := ERR_DEVICE_NOT_CONNECTED }
      else
        match device.connect_id with
        | none => GenResult.err { success := false, error := ERR_DEVICE_NOT_CONNECTED }
        | some cid =>
          let dev := mac2ab dev_addr
          if dev.length ≠ 6 then
            GenResult.err { success := false, error := ERR_INVALID_MAC_ADDR ++ ": " ++ dev_addr }
          else
            GenResult.ok
              { pair := true
                id := cid
                profile := devNameOrUndefined device.dev_name
                dev := dev
                len := 1
                list := [{ uuid := true
                           size := services.length
                           len := services.length
                           list := services.map (fun sv => mkServiceNode permissions sv.1 sv.2) }] }

/-- `BLEMaster.#disconnectDevice(device)` (source lines 562-574): turn off all
transport callbacks, destroy the profile instance when one exists, issue the
transport disconnect, and mark the device disconnected. -/
def disconnectDevice (d : Device) : Device × List TCall :=
  ({ d with is_connected := false },
    [TCall.mstOffAllCb]
      ++ (match d.profile_pid with
          | some pid => [TCall.mstDestroyProfileInstance pid]
          | none => [])
      ++ [TCall.mstDisconnect d.connect_id])

/-- `BLEMaster.stopScan()` (source lines 196-201). -/
def stopScan (s : BLEState) : BLEState × List TCall × Bool :=
  if s.is_scanning then ({ s with is_scanning := false }, [TCall.mstStopScan], true)
  else (s, [], false)

/-- `BLEMaster.quit()` (source lines 535-560): when no last-connected MAC is
tracked it logs and returns immediately, touching nothing. Otherwise it
disconnects the device if it is connected, deregisters all event callbacks
when `this.off` exists, clears the last-connected MAC, and stops a scan in
progress. -/
def quit (s : BLEState) : BLEState × List TCall :=
  match s.last_connected_mac with
  | none => (s, [])
  | some mac =>
    let step1 : BLEState × List TCall :=
      match getDevice s mac with
      | some d =>
        if d.is_connected then
          let dc := disconnectDevice d
          (setDevice s mac dc.1, dc.2)
        else (s, [])
      | none => (s, [])
    let step2 : BLEState :=
      if step1.1.off_exists then { step1.1 with callbacks := clearedCallbacks } else step1.1
    let step3 : BLEState := { step2 with last_connected_mac := none }
    let step4 := stopScan step3
    (step4.1, step1.2 ++ step4.2.1)

/-! ### Operation queue (`QueueManager`, source lines 648-677)

Event-loop semantics: the host is cooperative, so each turn runs to
completion. Two kinds of turns touch the queue: a caller's `enqueueOperation`
(push, then `processQueue`), and the firing of the in-flight operation's
continuation — the `callback` handed to `operation.execute`, invoked by the
polling waiter on flag-set or timeout — which clears `is_processing` and runs
`processQueue` again. `operation.execute`, on a connected device with a
prepared profile, issues exactly one transport call and starts the waiter
(`Write.#performCharaWrite` and friends), so an issue is recorded at the
moment `processQueue` hands an operation to `execute`. -/

/-- Queue events, one per event-loop turn: an `enqueueOperation(op)` call, or
the in-flight operation's continuation firing (completion flag observed or
timeout reached). Operations are labelled by `α`. -/
inductive QEvent (α : Type) where
  | enqueue (op : α)
  | complete
deriving DecidableEq, Repr

/-- `QueueManager` state plus the log of transport calls issued so far.
`inflight` is the operation whose `execute` has run but whose continuation has
not yet fired; `issued` records, oldest first, the operations handed to
`execute` (each issuing its one transport call). -/
structure QState (α : Type) where
  operation_queue_arr : List α
  is_processing : Bool
  inflight : Option α
  issued : List α
deriving DecidableEq, Repr

/-- `processQueue()`: return immediately when busy or empty; otherwise shift
the head, mark busy, and run its `execute` (one transport call is issued and
the waiter makes the operation in-flight). Also returns the operations issued
during this call (at most one). -/
def processQueue {α : Type} (s : QState α) : QState α × List α :=
  if s.is_processing then (s, [])
  else
    match s.operation_queue_arr with
    | [] => (s, [])
    | op :: rest =>
      ({ operation_queue_arr := rest
         is_processing := true
         inflight := some op
         issued := s.issued ++ [op] }, [op])

/-- One event-loop turn. `enqueue` pushes then drains; `complete` fires the
in-flight operation's continuation (`is_processing = false`, the operation is
dereferenced) and drains again. A `complete` turn with nothing in flight has
no pending continuation and changes nothing. -/
def stepQ {α : Type} (s : QState α) : QEvent α → QState α × List α
  | QEvent.enqueue op => processQueue { s with operation_queue_arr := s.operation_queue_arr ++ [op] }
  | QEvent.complete =>
    match s.inflight with
    | none => (s, [])
    | some _ => processQueue { s with is_processing := false, inflight := none }

/-- The queue state at construction: empty array, not processing. -/
def initialQ {α : Type} : QState α :=
  { operation_queue_arr := [], is_processing := false, inflight := none, issued := [] }

/-- Run a sequence of event-loop turns from a given state. -/
def runQFrom {α : Type} (s : QState α) : List (QEvent α) → QState α
  | [] => s
  | e :: rest => runQFrom (stepQ s e).1 rest

/-- Run a sequence of event-loop turns from the initial state. -/
def runQ {α : Type} (evs : List (QEvent α)) : QState α :=
  runQFrom initialQ evs

/-- The operations enqueued by an event sequence, in submission order. -/
def enqueuedOps {α : Type} : List (QEvent α) → List α
  | [] => []
  | QEvent.enqueue op :: rest => op :: enqueuedOps rest
  | QEvent.complete :: rest => enqueuedOps rest

/-! ### Completion waiters (source lines 795-825 and 901-927) -/

/-- `QueueManager._getQueueTimeout()`. -/
def queue_timeout : Nat := 5000

/-- `QueueManager._getQueueCheckInterval()`. -/
def queue_check_interval : Nat := 100

/-- Outcome of one `cb_check_completion` invocation: the continuation fires
with an optional error argument leaving the flags in a new state, or the check
reschedules itself one interval later. -/
inductive WaitStep where
  | fired (err : Option String) (flags : Flags)
  | again (flags : Flags)
deriving DecidableEq, Repr

/-- One check of `Write.#waitForWriteCompletion`'s polling callback, at a
given elapsed time since `start_time`: past the timeout it fires the
kind-specific timeout error; otherwise, if either the descriptor-write or the
characteristic-write completion flag is set, it resets both and fires success
(`callback()`, no argument); otherwise it reschedules. -/
def waitForWriteCompletionCheck (operation_type : String) (elapsed timeout : Nat)
    (flags : Flags) : WaitStep :=
  if elapsed > timeout then
    WaitStep.fired
      (some (if operation_type = "char" then ERR_CHAR_WRITE_OPERATION_TIMEOUT
             else ERR_DESC_WRITE_OPERATION_TIMEOUT)) flags
  else if flags.desc_write_complete_flag || flags.chara_write_complete_flag then
    WaitStep.fired none
      { flags with desc_write_complete_flag := false, chara_write_complete_flag := false }
  else WaitStep.again flags

/-- One check of `Read.#waitForReadCompletion`'s polling callback (same
structure, keyed on the read flags and `is_descriptor`). -/
def waitForReadCompletionCheck (is_descriptor : Bool) (elapsed timeout : Nat)
    (flags : Flags) : WaitStep :=
  if elapsed > timeout then
    WaitStep.fired
      (some (if is_descriptor then ERR_DESC_READ_OPERATION_TIMEOUT
             else ERR_CHAR_READ_OPERATION_TIMEOUT)) flags
  else if (is_descriptor && flags.desc_read_complete_flag)
        || (!is_descriptor && flags.chara_read_complete_flag) then
    WaitStep.fired none
      { flags with desc_read_complete_flag := false, chara_read_complete_flag := false }
  else WaitStep.again flags

/-- The polling loop shared (textually duplicated in the source) by
`Write.#waitForWriteCompletion` and `Read.#waitForReadCompletion`, in the
scenario where the completion flag is never set: checks run at elapsed times
`0, interval, 2·interval, …` (the first runs synchronously, each miss
reschedules via `setTimeout(cb_check_completion, check_interval)`), and the
loop returns the elapsed time at which the continuation fires together with
the error it is invoked with. The wall clock advances by exactly one interval
between consecutive checks; `0 < interval` holds for the source's constant
interval of 100. -/
def pollTimeoutFire (err : String) (timeout interval elapsed : Nat)
    (h : 0 < interval) : Nat × Option String :=
  if _htime : elapsed > timeout then (elapsed, some err)
  else pollTimeoutFire err timeout interval (elapsed + interval) h
termination_by timeout + 1 - elapsed
decreasing_by omega

/-- `Write.#waitForWriteCompletion` with the completion flags never set: the
loop fires the kind-specific write timeout error. -/
def waitForWriteTimeoutFire (operation_type : String) (timeout interval elapsed : Nat)
    (h : 0 < interval) : Nat × Option String :=
  pollTimeoutFire
    (if operation_type = "char" then ERR_CHAR_WRITE_OPERATION_TIMEOUT
     else ERR_DESC_WRITE_OPERATION_TIMEOUT) timeout interval elapsed h

/-- `Read.#waitForReadCompletion` with the completion flags never set: the
loop fires the kind-specific read timeout error. -/
def waitForReadTimeoutFire (is_descriptor : Bool) (timeout interval elapsed : Nat)
    (h : 0 < interval) : Nat × Option String :=
  pollTimeoutFire
    (if is_descriptor then ERR_DESC_READ_OPERATION_TIMEOUT
     else ERR_CHAR_READ_OPERATION_TIMEOUT) timeout interval elapsed h

/-! ### Operation execution (source lines 753-793 and 878-899) -/

/-- What an operation's `execute` does synchronously: either the continuation
is invoked at once with the given argument (`immediate`), or a waiter now
polls for the given operation type (`waiting`). -/
inductive ExecOutcome where
  | immediate (err : Option String)
  | waiting (operation_type : String)
deriving DecidableEq, Repr

/-- `Write.#performCharaWrite(uuid, data, write_without_response, callback)`:
with no current device or no stored `profile_pid`, it logs and invokes
`callback()` (no argument) without any transport call; with
`write_without_response` it issues the unacknowledged write and invokes
`callback()` immediately; otherwise it issues the write and starts the
write-completion waiter for kind `char`. -/
def performCharaWrite (s : BLEState) (uuid : String) (write_without_response : Bool) :
    List TCall × ExecOutcome :=
  match getCurrentlyConnectedDevice s with
  | none => ([], ExecOutcome.immediate none)
  | some device =>
    match device.profile_pid with
    | none => ([], ExecOutcome.immediate none)
    | some profile_pid =>
      if write_without_response then
        ([TCall.mstWriteCharacteristicWithoutResponse profile_pid uuid],
          ExecOutcome.immediate none)
      else
        ([TCall.mstWriteCharacteristic profile_pid uuid], ExecOutcome.waiting "char")

/-- `Write.#performDescriptorWrite(chara, desc, data, callback)`: the missing
device/profile guard invokes `callback()` with no transport call; otherwise
the descriptor write is issued and the write waiter starts for kind `desc`. -/
def performDescriptorWrite (s : BLEState) (chara desc : String) :
    List TCall × ExecOutcome :=
  match getCurrentlyConnectedDevice s with
  | none => ([], ExecOutcome.immediate none)
  | some device =>
    match device.profile_pid with
    | none => ([], ExecOutcome.immediate none)
    | some profile_pid =>
      ([TCall.mstWriteDescriptor profile_pid chara desc], ExecOutcome.waiting "desc")

/-- `Read.#performReadOperation(uuid, is_descriptor, callback)`: the missing
device/profile guard invokes `callback()` with no transport call; otherwise
the read is issued (the descriptor variant splits the composite
`chara-desc` uuid on `-`) and the read waiter starts. -/
def performReadOperation (s : BLEState) (uuid : String) (is_descriptor : Bool) :
    List TCall × ExecOutcome :=
  match getCurrentlyConnectedDevice s with
  | none => ([], ExecOutcome.immediate none)
  | some device =>
    match device.profile_pid with
    | none => ([], ExecOutcome.immediate none)
    | some profile_pid =>
      if is_descriptor then
        let parts := uuid.splitOn "-"
        ([TCall.mstReadDescriptor profile_pid (parts.getD 0 "") (parts.getD 1 "")],
          ExecOutcome.waiting "descread")
      else
        ([TCall.mstReadCharacteristic profile_pid uuid], ExecOutcome.waiting "charread")

/-! ### Concrete sample states (used by witnesses and counterexamples) -/

/-- A well-formed lowercase MAC address. -/
def macA : String := "aa:bb:cc:dd:ee:ff"

/-- A device entry after a successful connect and prepare. -/
def sampleDevice : Device :=
  { dev_name := some "thermo", connect_id := some 5, is_connected := true, profile_pid := some 3 }

/-- A state with one connected, prepared device tracked as last-connected. -/
def sConnected : BLEState :=
  { devices := [(macA, sampleDevice)], last_connected_mac := some macA }

/-- `sConnected` with the `off` helper present, a scan running and one event
subscription registered. -/
def sConnectedOff : BLEState :=
  { devices := [(macA, sampleDevice)], last_connected_mac := some macA
    is_scanning := true, off_exists := true, callbacks := { charaNotification := true } }

/-- A state with a connected device that has no stored `profile_pid`. -/
def sConnNoPid : BLEState :=
  { devices := [(macA, { sampleDevice with profile_pid := none })]
    last_connected_mac := some macA }

/-- A freshly constructed `BLEMaster`: empty registry, nothing tracked. -/
def sFresh : BLEState := {}

/-- A state with no last-connected device but a registered subscription, the
`off` helper present and a scan running (reachable, e.g., after `disconnect()`
cleared the tracked MAC). -/
def sIdleWithCb : BLEState :=
  { devices := [], last_connected_mac := none, is_scanning := true
    off_exists := true, callbacks := { charaNotification := true } }

/-! ## Theorems -/

/-- Claim C6: wildcard address matching — a pattern octet `xx` matches any
octet, every other pattern octet must equal the corresponding address octet,
addresses with a different octet count never match; the two spec examples
hold; and a wildcard lookup returns the first registry entry whose octets
agree, or `none` when no entry does. -/
theorem c6_wildcard_matching :
    (isMacAddressMatch "11:22:33:44:55:66" "11:xx:33:44:55:66" = true)
    ∧ (isMacAddressMatch "11:22:99:44:55:66" "11:xx:33:44:55:66" = false)
    ∧ (∀ mac pattern : String,
        (jsSplit ':' mac.data).length ≠ (jsSplit ':' pattern.data).length →
        isMacAddressMatch mac pattern = false)
    ∧ (∀ mac pattern : String,
        isMacAddressMatch mac pattern = true ↔
          ((jsSplit ':' mac.data).length = (jsSplit ':' pattern.data).length ∧
            ∀ pb ∈ List.zip (jsSplit ':' pattern.data) (jsSplit ':' mac.data),
              pb.1 = ['x', 'x'] ∨ pb.1 = pb.2))
    ∧ (∀ (devices : List String) (pattern : String),
        findMatchingMacAddress devices pattern =
          devices.find? (fun mac => isMacAddressMatch mac (jsToLower pattern))) := by
  refine ⟨by decide, by decide, ?_, ?_, ?_⟩
  · intro mac pattern h
    simp only [isMacAddressMatch]
    rw [if_pos h]
  · intro mac pattern
    by_cases h : (jsSplit ':' mac.data).length = (jsSplit ':' pattern.data).length
    · simp [isMacAddressMatch, h, List.all_eq_true]
    · simp only [isMacAddressMatch]
      rw [if_pos h]
      simp [h]
  · intro devices pattern
    rfl

/-- Witness for C6: applying the octet-count component at a concrete pair of
different octet counts. -/
theorem c6_wildcard_matching_witness :
    isMacAddressMatch "11:22" "11:xx:33" = false :=
  c6_wildcard_matching.2.2.1 "11:22" "11:xx:33" (by decide)

/-- Claim C2 (code bug): on a fresh state, for a strictly valid address with
no connection in progress and no session, `connect` reaches the
`#initiateConnection(dev_addr, response_callback, attempt, max_attempts,
timeout_duration)` call whose last three arguments are undeclared
identifiers, so it throws a `ReferenceError` and issues no transport connect
call instead of issuing one and returning `true`. -/
theorem c2_connect_throws_reference_error :
    connect sFresh "aa:bb:cc:dd:ee:ff" =
      { result := JSReturn.thrown JSError.referenceError, cbs := [], transport := [] } := by
  decide

/-- Claim C8: for every non-empty address whose lowercase form does not
contain `xx`, while the tracked device is marked connected — whatever address
was supplied — `connect` invokes its callback once with
`{connected: true, status: "connected"}`, returns `true`, issues no transport
call and never reaches the address-format validation. -/
theorem c8_connect_short_circuits_when_connected (s : BLEState) (dev_addr : String)
    (hne : dev_addr ≠ "")
    (hxx : strContains (jsToLower dev_addr) "xx" = false)
    (hconn : isConnected s = true) :
    connect s dev_addr =
      { result := JSReturn.ok true
        cbs := [{ connected := true, status := "connected" }]
        transport := [] } := by
  simp [connect, connectResolved, hne, hxx, hconn]

/-- Witness for C8: a connected state and a supplied address that is not even
a valid MAC still short-circuit with success and no transport call. -/
theorem c8_connect_short_circuits_when_connected_witness :
    connect sConnected "NOT-A-MAC" =
      { result := JSReturn.ok true
        cbs := [{ connected := true, status := "connected" }]
        transport := [] } :=
  c8_connect_short_circuits_when_connected sConnected "NOT-A-MAC"
    (by decide) (by decide) (by decide)

/-- Claim C9: when no device is tracked, or the tracked device has no stored
`profile_pid`, every queued read/write operation performs no transport call
and invokes its continuation immediately with no error argument —
`ExecOutcome.immediate none`, the same `callback()` invocation the waiters'
success branch performs (`WaitStep.fired none`), so the queue and any caller
see an outcome indistinguishable from a success. -/
theorem c9_missing_profile_reports_silent_success (s : BLEState)
    (uuid chara desc ruuid : String) (write_without_response is_descriptor : Bool)
    (h : Option.all (fun d => d.profile_pid.isNone) (getCurrentlyConnectedDevice s) = true) :
    performCharaWrite s uuid write_without_response = ([], ExecOutcome.immediate none)
    ∧ performDescriptorWrite s chara desc = ([], ExecOutcome.immediate none)
    ∧ performReadOperation s ruuid is_descriptor = ([], ExecOutcome.immediate none) := by
  cases hcc : getCurrentlyConnectedDevice s with
  | none =>
    exact ⟨by simp [performCharaWrite, hcc], by simp [performDescriptorWrite, hcc],
      by simp [performReadOperation, hcc]⟩
  | some d =>
    rw [hcc] at h
    simp only [Option.all, Option.isNone_iff_eq_none] at h
    exact ⟨by simp [performCharaWrite, hcc, h], by simp [performDescriptorWrite, hcc, h],
      by simp [performReadOperation, hcc, h]⟩

/-- Witness for C9: the missing-`profile_pid` state. -/
theorem c9_missing_profile_reports_silent_success_witness :
    performCharaWrite sConnNoPid "2A19" false = ([], ExecOutcome.immediate none)
    ∧ performDescriptorWrite sConnNoPid "2A19" "2902" = ([], ExecOutcome.immediate none)
    ∧ performReadOperation sConnNoPid "2A19" false = ([], ExecOutcome.immediate none) :=
  c9_missing_profile_reports_silent_success sConnNoPid "2A19" "2A19" "2902" "2A19" false false
    (by decide)

/-- Claim C10: one write-completion check treats the characteristic-write and
descriptor-write flags interchangeably — whichever of the two is set, and for
either pending operation type, the check fires success and resets both write
flags to false; when neither is set (and the timeout has not elapsed) it
merely reschedules. -/
theorem c10_write_flags_interchangeable (operation_type : String) (flags : Flags)
    (elapsed timeout : Nat) (hto : elapsed ≤ timeout) :
    ((flags.desc_write_complete_flag || flags.chara_write_complete_flag) = true →
      waitForWriteCompletionCheck operation_type elapsed timeout flags =
        WaitStep.fired none
          { flags with desc_write_complete_flag := false, chara_write_complete_flag := false })
    ∧ ((flags.desc_write_complete_flag || flags.chara_write_complete_flag) = false →
      waitForWriteCompletionCheck operation_type elapsed timeout flags =
        WaitStep.again flags) := by
  constructor <;> intro h <;>
    simp [waitForWriteCompletionCheck, h, Nat.not_lt.mpr hto]

/-- Witness for C10: a pending descriptor write whose only set flag is the
characteristic-write one still completes, both flags coming out false. -/
theorem c10_write_flags_interchangeable_witness :
    waitForWriteCompletionCheck "desc" 0 5000
        { chara_write_complete_flag := true } =
      WaitStep.fired none {} :=
  (c10_write_flags_interchangeable "desc" { chara_write_complete_flag := true } 0 5000
    (by decide)).1 (by decide)

/-- Claim C4 (amended): `generateProfileObject` returns a structured
`{success: false, error}` result — and never throws, being a total function —
when no last-connected device is tracked, when the tracked entry is missing
or not connected or has a non-numeric `connect_id`, and when the address does
not parse to 6 bytes; but an empty services map is not an error: for any
connected device it yields a profile tree whose service list is empty with
`size = len = 0`. -/
theorem c4_generate_profile_error_paths :
    (∀ (s : BLEState) (services : Services) (permissions : Perms),
      s.last_connected_mac = none →
      generateProfileObject s services permissions =
        GenResult.err { success := false, error := ERR_DEVICE_NOT_CONNECTED })
    ∧ (∀ (s : BLEState) (mac : String) (services : Services) (permissions : Perms),
      s.last_connected_mac = some mac → getDevice s mac = none →
      generateProfileObject s services permissions =
        GenResult.err { success := false, error := ERR_DEVICE_NOT_FOUND ++ ": " ++ mac })
    ∧ (∀ (s : BLEState) (mac : String) (d : Device) (services : Services) (permissions : Perms),
      s.last_connected_mac = some mac → getDevice s mac = some d → d.is_connected = false →
      generateProfileObject s services permissions =
        GenResult.err { success := false, error := ERR_DEVICE_NOT_CONNECTED })
    ∧ (∀ (s : BLEState) (mac : String) (d : Device) (services : Services) (permissions : Perms),
      s.last_connected_mac = some mac → getDevice s mac = some d → d.is_connected = true →
      d.connect_id = none →
      generateProfileObject s services permissions =
        GenResult.err { success := false, error := ERR_DEVICE_NOT_CONNECTED })
    ∧ (∀ (s : BLEState) (mac : String) (d : Device) (cid : Int) (services : Services)
        (permissions : Perms),
      s.last_connected_mac = some mac → getDevice s mac = some d → d.is_connected = true →
      d.connect_id = some cid → (mac2ab mac).length ≠ 6 →
      generateProfileObject s services permissions =
        GenResult.err { success := false, error := ERR_INVALID_MAC_ADDR ++ ": " ++ mac })
    ∧ (∀ (s : BLEState) (mac : String) (d : Device) (cid : Int) (permissions : Perms),
      s.last_connected_mac = some mac → getDevice s mac = some d → d.is_connected = true →
      d.connect_id = some cid → (mac2ab mac).length = 6 →
      generateProfileObject s [] permissions =
        GenResult.ok
          { pair := true, id := cid, profile := devNameOrUndefined d.dev_name
            dev := mac2ab mac, len := 1
            list := [{ uuid := true, size := 0, len := 0, list := [] }] }) := by
  refine ⟨?_, ?_, ?_, ?_, ?_, ?_⟩
  · intro s services permissions h
    simp [generateProfileObject, h]
  · intro s mac services permissions h1 h2
    simp [generateProfileObject, h1, h2]
  · intro s mac d services permissions h1 h2 h3
    simp [generateProfileObject, h1, h2, h3]
  · intro s mac d services permissions h1 h2 h3 h4
    simp [generateProfileObject, h1, h2, h3, h4]
  · intro s mac d cid services permissions h1 h2 h3 h4 h5
    simp [generateProfileObject, h1, h2, h3, h4, h5]
  · intro s mac d cid permissions h1 h2 h3 h4 h5
    simp [generateProfileObject, h1, h2, h3, h4, h5]

/-- Counterexample for C4 as stated: with a connected device and an empty
services map, `generateProfileObject` returns a profile tree (no
`success: false`, no `error` field), not a structured error. -/
theorem c4_empty_services_returns_tree :
    generateProfileObject sConnected [] [] =
      GenResult.ok
        { pair := true, id := 5, profile := "thermo"
          dev := [170, 187, 204, 221, 238, 255], len := 1
          list := [{ uuid := true, size := 0, len := 0, list := [] }] } := by
  decide

/-- Witness for C4 (amended): the no-device error path at a fresh state. -/
theorem c4_generate_profile_error_paths_witness :
    generateProfileObject sFresh [] [] =
      GenResult.err { success := false, error := ERR_DEVICE_NOT_CONNECTED } :=
  c4_generate_profile_error_paths.1 sFresh [] [] rfl

/-- Claim C3: with a connected device (numeric `connect_id`, 6-byte-parseable
address), `generateProfileObject {"180F": {"2A19": ["2902"]}}` with no
permission overrides yields exactly one service node `180F`, one
characteristic node `2A19` with permission 32 (0x20), one descriptor node
`2902` with permission 32, and every child-count field — root `len`,
service-list `size`/`len`, service `len1`/`len2`, characteristic
`desc`/`len` — equal to 1. -/
theorem c3_single_service_profile_tree (s : BLEState) (mac : String) (d : Device) (cid : Int)
    (hlast : s.last_connected_mac = some mac)
    (hdev : getDevice s mac = some d)
    (hconn : d.is_connected = true)
    (hcid : d.connect_id = some cid)
    (hmac : (mac2ab mac).length = 6) :
    generateProfileObject s [("180F", [("2A19", ["2902"])])] [] =
      GenResult.ok
        { pair := true, id := cid, profile := devNameOrUndefined d.dev_name
          dev := mac2ab mac, len := 1
          list := [{ uuid := true, size := 1, len := 1
                     list := [{ uuid := "180F", permission := 0, len1 := 1, len2 := 1
                                list := [{ uuid := "2A19", permission := 32, desc := 1, len := 1
                                           list := some [{ uuid := "2902", permission := 32 }] }] }] }] } := by
  simp [generateProfileObject, hlast, hdev, hconn, hcid, hmac,
    mkServiceNode, mkCharaNode, permValue]

/-- Witness for C3: the concrete connected state. -/
theorem c3_single_service_profile_tree_witness :
    generateProfileObject sConnected [("180F", [("2A19", ["2902"])])] [] =
      GenResult.ok
        { pair := true, id := 5, profile := devNameOrUndefined sampleDevice.dev_name
          dev := mac2ab macA, len := 1
          list := [{ uuid := true, size := 1, len := 1
                     list := [{ uuid := "180F", permission := 0, len1 := 1, len2 := 1
                                list := [{ uuid := "2A19", permission := 32, desc := 1, len := 1
                                           list := some [{ uuid := "2902", permission := 32 }] }] }] }] } :=
  c3_single_service_profile_tree sConnected macA sampleDevice 5 rfl (by decide) rfl rfl (by decide)

/-- Bounds on the polling loop's firing point: started within one interval of
the deadline, it fires strictly after `timeout` and no later than
`timeout + interval`, with the supplied error. -/
theorem pollTimeoutFire_bounds :
    ∀ (n : Nat) (err : String) (timeout interval elapsed : Nat) (h : 0 < interval),
    timeout + 1 - elapsed ≤ n → elapsed ≤ timeout + interval →
    timeout < (pollTimeoutFire err timeout interval elapsed h).1
    ∧ (pollTimeoutFire err timeout interval elapsed h).1 ≤ timeout + interval
    ∧ (pollTimeoutFire err timeout interval elapsed h).2 = some err := by
  intro n
  induction n with
  | zero =>
    intro err timeout interval elapsed h hn hb
    have hgt : elapsed > timeout := by omega
    unfold pollTimeoutFire
    rw [dif_pos hgt]
    exact ⟨hgt, hb, rfl⟩
  | succ n ih =>
    intro err timeout interval elapsed h hn hb
    by_cases hgt : elapsed > timeout
    · unfold pollTimeoutFire
      rw [dif_pos hgt]
      exact ⟨hgt, hb, rfl⟩
    · unfold pollTimeoutFire
      rw [dif_neg hgt]
      exact ih err timeout interval (elapsed + interval) h (by omega) (by omega)

/-- Claim C5: a queued read or write whose completion flag is never set fires
its continuation with the kind-specific timeout error, strictly after the
configured timeout and no more than one polling interval past it; the
configured defaults are a 5000 ms timeout and a 100 ms check interval. -/
theorem c5_timeout_fires_within_one_interval (timeout interval : Nat) (h : 0 < interval)
    (operation_type : String) (is_descriptor : Bool) :
    (timeout < (waitForWriteTimeoutFire operation_type timeout interval 0 h).1
      ∧ (waitForWriteTimeoutFire operation_type timeout interval 0 h).1 ≤ timeout + interval
      ∧ (waitForWriteTimeoutFire operation_type timeout interval 0 h).2 =
          some (if operation_type = "char" then ERR_CHAR_WRITE_OPERATION_TIMEOUT
                else ERR_DESC_WRITE_OPERATION_TIMEOUT))
    ∧ (timeout < (waitForReadTimeoutFire is_descriptor timeout interval 0 h).1
      ∧ (waitForReadTimeoutFire is_descriptor timeout interval 0 h).1 ≤ timeout + interval
      ∧ (waitForReadTimeoutFire is_descriptor timeout interval 0 h).2 =
          some (if is_descriptor then ERR_DESC_READ_OPERATION_TIMEOUT
                else ERR_CHAR_READ_OPERATION_TIMEOUT))
    ∧ queue_timeout = 5000 ∧ queue_check_interval = 100 :=
  ⟨pollTimeoutFire_bounds (timeout + 1) _ timeout interval 0 h (by omega) (by omega),
    pollTimeoutFire_bounds (timeout + 1) _ timeout interval 0 h (by omega) (by omega),
    rfl, rfl⟩

/-- Witness for C5: the default 5000 ms timeout with the 100 ms interval. -/
theorem c5_timeout_fires_within_one_interval_witness :
    5000 < (waitForWriteTimeoutFire "char" 5000 100 0 (by decide)).1
    ∧ (waitForWriteTimeoutFire "char" 5000 100 0 (by decide)).1 ≤ 5000 + 100
    ∧ (waitForWriteTimeoutFire "char" 5000 100 0 (by decide)).2 =
        some ERR_CHAR_WRITE_OPERATION_TIMEOUT := by
  have hb := (c5_timeout_fires_within_one_interval 5000 100 (by decide) "char" true).1
  exact ⟨hb.1, hb.2.1, by simpa using hb.2.2⟩

/-- `setDevice` only touches the `devices` map. -/
theorem setDevice_fields (s : BLEState) (mac : String) (d : Device) :
    (setDevice s mac d).last_connected_mac = s.last_connected_mac
    ∧ (setDevice s mac d).off_exists = s.off_exists
    ∧ (setDevice s mac d).is_scanning = s.is_scanning
    ∧ (setDevice s mac d).callbacks = s.callbacks := by
  unfold setDevice
  split <;> exact ⟨rfl, rfl, rfl, rfl⟩

/-- Claim C7 (amended): `quit` is an idempotent teardown, safe to call from
every state including when no session exists: in every state it leaves the
last-connected-device state reset to idle and a second call has no further
effect; but it clears the registered event subscriptions only when a
last-connected device is tracked (and the `off` deregistration helper
exists) — when none is tracked it returns immediately, leaving any
registered subscriptions in place. -/
theorem c7_quit_teardown (s : BLEState) :
    (quit s).1.last_connected_mac = none
    ∧ quit (quit s).1 = ((quit s).1, [])
    ∧ (s.last_connected_mac = none → quit s = (s, []))
    ∧ (∀ mac, s.last_connected_mac = some mac → s.off_exists = true →
        (quit s).1.callbacks = clearedCallbacks) := by
  cases hl : s.last_connected_mac with
  | none =>
    have hq : quit s = (s, []) := by simp [quit, hl]
    refine ⟨?_, ?_, fun _ => hq, ?_⟩
    · rw [hq]; exact hl
    · rw [hq]; exact hq
    · intro mac hmac; exact Option.noConfusion hmac
  | some mac =>
    have key : (quit s).1.last_connected_mac = none
        ∧ (s.off_exists = true → (quit s).1.callbacks = clearedCallbacks) := by
      cases hd : getDevice s mac with
      | none =>
        by_cases ho : s.off_exists <;> by_cases hsc : s.is_scanning <;>
          simp [quit, hl, hd, stopScan, ho, hsc]
      | some d =>
        by_cases hc : d.is_connected <;> by_cases ho : s.off_exists <;>
          by_cases hsc : s.is_scanning <;>
          by_cases hf : (s.devices.find? (fun p => p.1 = mac)).isSome <;>
          simp [quit, hl, hd, stopScan, setDevice, disconnectDevice, hc, ho, hsc, hf]
    obtain ⟨k1, k2⟩ := key
    have hidem : quit (quit s).1 = ((quit s).1, []) := by
      set X := (quit s).1 with hX
      simp [quit, k1]
    exact ⟨k1, hidem, fun h => Option.noConfusion h, fun mac' _ ho => k2 ho⟩

/-- Counterexample for C7 as stated: with no tracked last-connected device
but a registered subscription and a running scan, `quit` returns leaving the
subscription registered (and the scan running) — it does not clear all event
subscriptions in every state. -/
theorem c7_quit_skips_teardown_when_untracked :
    quit sIdleWithCb = (sIdleWithCb, [])
    ∧ sIdleWithCb.callbacks.charaNotification = true
    ∧ sIdleWithCb.is_scanning = true := by
  decide

/-- Witness for C7 (amended): the tracked, prepared state with the `off`
helper present. -/
theorem c7_quit_teardown_witness :
    (quit sConnectedOff).1.callbacks = clearedCallbacks
    ∧ quit (quit sConnectedOff).1 = ((quit sConnectedOff).1, []) :=
  ⟨(c7_quit_teardown sConnectedOff).2.2.2 macA rfl rfl,
    (c7_quit_teardown sConnectedOff).2.1⟩

/-- `processQueue` preserves the concatenation of the issue log and the
pending array, and preserves the busy-flag invariant. -/
theorem processQueue_pres {α : Type} (s : QState α) :
    (processQueue s).1.issued ++ (processQueue s).1.operation_queue_arr =
      s.issued ++ s.operation_queue_arr
    ∧ (s.is_processing = s.inflight.isSome →
        (processQueue s).1.is_processing = (processQueue s).1.inflight.isSome) := by
  unfold processQueue
  by_cases hp : s.is_processing
  · simp [hp]
  · cases hq : s.operation_queue_arr with
    | nil => simp [hp, hq]
    | cons op rest => simp [hp, hq]

/-- `processQueue` issues at most one operation, and only from an idle
queue. -/
theorem processQueue_issues {α : Type} (s : QState α) :
    (processQueue s).2.length ≤ 1
    ∧ ((processQueue s).2 ≠ [] → s.is_processing = false) := by
  unfold processQueue
  by_cases hp : s.is_processing
  · simp [hp]
  · cases hq : s.operation_queue_arr with
    | nil => simp [hp, hq]
    | cons op rest => simp [hp, hq]

/-- One event-loop turn preserves the queue invariant: the issue log followed
by the pending array is the submission-ordered list of enqueued operations,
and `is_processing` tracks whether an operation is in flight. -/
theorem stepQ_inv {α : Type} (s : QState α) (e : QEvent α)
    (hflag : s.is_processing = s.inflight.isSome) :
    (stepQ s e).1.issued ++ (stepQ s e).1.operation_queue_arr =
      s.issued ++ s.operation_queue_arr ++
        (match e with | QEvent.enqueue op => [op] | QEvent.complete => [])
    ∧ (stepQ s e).1.is_processing = (stepQ s e).1.inflight.isSome := by
  cases e with
  | enqueue op =>
    simp only [stepQ]
    refine ⟨?_, (processQueue_pres _).2 hflag⟩
    rw [(processQueue_pres _).1]
    simp
  | complete =>
    cases hin : s.inflight with
    | none =>
      refine ⟨by simp [stepQ, hin], ?_⟩
      simpa [stepQ, hin] using hflag
    | some op =>
      simp only [stepQ, hin]
      refine ⟨?_, (processQueue_pres _).2 rfl⟩
      rw [(processQueue_pres _).1]
      simp

/-- Running any event sequence preserves the queue invariant. -/
theorem runQFrom_inv {α : Type} :
    ∀ (evs : List (QEvent α)) (s : QState α),
    s.is_processing = s.inflight.isSome →
    (runQFrom s evs).issued ++ (runQFrom s evs).operation_queue_arr =
      s.issued ++ s.operation_queue_arr ++ enqueuedOps evs
    ∧ (runQFrom s evs).is_processing = (runQFrom s evs).inflight.isSome := by
  intro evs
  induction evs with
  | nil => intro s hs; simp [runQFrom, enqueuedOps, hs]
  | cons e rest ih =>
    intro s hs
    have hstep := stepQ_inv s e hs
    have hrest := ih (stepQ s e).1 hstep.2
    refine ⟨?_, hrest.2⟩
    simp only [runQFrom]
    rw [hrest.1, hstep.1]
    cases e <;> simp [enqueuedOps]

/-- Claim C1: the Operation Queue is a strict FIFO with at most one
in-flight operation. For every event sequence from the initial state: the
transport-issue log followed by the still-pending array is exactly the
enqueued operations in submission order; any single further turn issues at
most one operation, and only when nothing is in flight at the point of issue
(either the queue was idle, or the turn is the in-flight operation's
continuation firing, which precedes the issue within the turn); and once the
trace is quiescent — nothing in flight, nothing pending — the issue log is
exactly the `N` enqueued operations in submission order. -/
theorem c1_queue_strict_fifo (evs : List (QEvent Nat)) :
    ((runQ evs).issued ++ (runQ evs).operation_queue_arr = enqueuedOps evs)
    ∧ (∀ e : QEvent Nat,
        (stepQ (runQ evs) e).2.length ≤ 1
        ∧ ((stepQ (runQ evs) e).2 ≠ [] →
            (runQ evs).inflight = none ∨ e = QEvent.complete))
    ∧ ((runQ evs).inflight = none → (runQ evs).operation_queue_arr = [] →
        (runQ evs).issued = enqueuedOps evs) := by
  have hinv := runQFrom_inv evs (initialQ (α := Nat)) rfl
  have hflag : (runQ evs).is_processing = (runQ evs).inflight.isSome := hinv.2
  have hcat : (runQ evs).issued ++ (runQ evs).operation_queue_arr = enqueuedOps evs := by
    simpa [runQ, initialQ] using hinv.1
  refine ⟨hcat, ?_, ?_⟩
  · intro e
    cases e with
    | enqueue op =>
      refine ⟨(processQueue_issues _).1, fun hne => Or.inl ?_⟩
      have hp : (runQ evs).is_processing = false :=
        (processQueue_issues
          { runQ evs with operation_queue_arr := (runQ evs).operation_queue_arr ++ [op] }).2 hne
      have hps : (runQ evs).inflight.isSome = false := by rw [← hflag]; exact hp
      cases hop : (runQ evs).inflight with
      | none => rfl
      | some x => rw [hop] at hps; simp at hps
    | complete =>
      refine ⟨?_, fun _ => Or.inr rfl⟩
      cases hop : (runQ evs).inflight with
      | none => simp [stepQ, hop]
      | some x =>
        simp only [stepQ, hop]
        exact (processQueue_issues _).1
  · intro hin hq
    rw [hq, List.append_nil] at hcat
    exact hcat

/-- Witness for C1: two enqueues followed by their two continuations leave an
issue log equal to the submission order. -/
theorem c1_queue_strict_fifo_witness :
    (runQ [QEvent.enqueue 7, QEvent.enqueue 8, QEvent.complete, QEvent.complete]).issued =
      enqueuedOps [QEvent.enqueue 7, QEvent.enqueue 8, QEvent.complete,
        QEvent.complete (α := Nat)] :=
  (c1_queue_strict_fifo _).2.2 (by decide) (by decide)

end EasyBLE
